import Mathlib

/-!
Shallow embedding of the DocuMind document-manager backend and client
auto-save controller, translated from the TypeScript sources
(`server/src/handlers/*.ts`, `server/src/schema.ts`,
`server/src/db/schema.ts`, `client/src/components/DocumentEditor.tsx`).

The relational store is modelled as lists of rows; `timestamp` columns
are modelled as `Nat` clock values supplied explicitly by the caller
(`now`), and `serial` primary keys as `Nat` ids supplied on insert.
Handlers that can `throw` return `Except String`; handlers that mutate
the store return the new store alongside their result.
-/

namespace DocuMind

/-- A row of the `users` table (`db/schema.ts`, `usersTable`). -/
structure User where
  id : Nat
  email : String
  name : String
  created_at : Nat
deriving Repr, DecidableEq

/-- A row of the `documents` table (`db/schema.ts`, `documentsTable`). -/
structure Document where
  id : Nat
  title : String
  content : String
  user_id : Nat
  created_at : Nat
  updated_at : Nat
deriving Repr, DecidableEq

/-- The `source_type` column's enum domain (`db/schema.ts`, `sourceTypeEnum`). -/
inductive SourceType where
  | url
  | file
  | text
deriving Repr, DecidableEq

/-- A row of the `sources` table (`db/schema.ts`, `sourcesTable`). -/
structure Source where
  id : Nat
  document_id : Nat
  title : String
  content : String
  source_type : SourceType
  source_url : Option String
  created_at : Nat
deriving Repr, DecidableEq

/-- The `assistance_type` column's enum domain (`db/schema.ts`, `assistanceTypeEnum`). -/
inductive AssistanceType where
  | write
  | edit
  | study_guide
  | summarize
deriving Repr, DecidableEq

/-- A row of the `ai_assistance_responses` table
(`db/schema.ts`, `aiAssistanceResponsesTable`). -/
structure AiResponse where
  id : Nat
  document_id : Nat
  request_prompt : String
  response_content : String
  assistance_type : AssistanceType
  created_at : Nat
deriving Repr, DecidableEq

/-- The relational store: the four tables of `db/schema.ts`. -/
structure DB where
  users : List User
  documents : List Document
  sources : List Source
  ai_responses : List AiResponse
deriving Repr, DecidableEq

/-- `getDocument` (`handlers/get_document.ts`): select documents whose
`id` and `user_id` both match, `limit 1`; `null` when none matches. -/
def getDocument (db : DB) (id user_id : Nat) : Option Document :=
  ((db.documents.filter fun d => d.id == id && d.user_id == user_id).take 1).head?

/-- `deleteDocument` (the implemented variant shipped alongside
`handlers/create_source.ts`): delete documents matching both `id` and
`user_id`, returning whether any row was deleted.  The `sources` and
`ai_assistance_responses` rows of a deleted document are removed by the
store's `onDelete: 'cascade'` foreign keys (`db/schema.ts`). -/
def deleteDocument (db : DB) (id user_id : Nat) : Bool × DB :=
  let deleted := db.documents.filter fun d => d.id == id && d.user_id == user_id
  let deletedIds := deleted.map (fun d => d.id)
  ( deleted.length > 0,
    { db with
        documents := db.documents.filter fun d => !(d.id == id && d.user_id == user_id),
        sources := db.sources.filter fun s => !(deletedIds.contains s.document_id),
        ai_responses := db.ai_responses.filter fun r => !(deletedIds.contains r.document_id) } )

/-- Parsed `UpdateDocumentInput` (`schema.ts`, `updateDocumentInputSchema`):
`title` and `content` are optional; absent fields are left untouched. -/
structure UpdateDocumentInput where
  id : Nat
  title : Option String
  content : Option String
deriving Repr, DecidableEq

/-- The row produced by `updateDocument`'s `set` clause for one matched
document: `updated_at` always refreshed, `title`/`content` only when
supplied. -/
def applyUpdate (input : UpdateDocumentInput) (now : Nat) (d : Document) : Document :=
  { d with
      updated_at := now,
      title := input.title.getD d.title,
      content := input.content.getD d.content }

/-- `updateDocument` (implemented variant shipped alongside
`handlers/get_ai_responses.ts`): update rows matching `id` only (no
`user_id` filter), returning the first updated row, or `null` when no
row matched. -/
def updateDocument (db : DB) (input : UpdateDocumentInput) (now : Nat) :
    Option Document × DB :=
  let updated := (db.documents.filter fun d => d.id == input.id).map (applyUpdate input now)
  ( updated.head?,
    { db with
        documents := db.documents.map fun d =>
          if d.id == input.id then applyUpdate input now d else d } )

/-- Descending `updated_at` order used by `getDocuments`'s
`orderBy(desc(documentsTable.updated_at))`. -/
def newestFirst (a b : Document) : Prop := b.updated_at ≤ a.updated_at

instance : DecidableRel newestFirst := fun _ _ => Nat.decLe _ _

instance : IsTotal Document newestFirst :=
  ⟨fun a b => (Nat.le_total a.updated_at b.updated_at).symm⟩

instance : IsTrans Document newestFirst :=
  ⟨fun _ _ _ h1 h2 => Nat.le_trans h2 h1⟩

/-- Parsed `GetDocumentsInput` (`schema.ts`, `getDocumentsInputSchema`)
after zod validation: `limit` and `offset` already defaulted and
range-checked. -/
structure GetDocumentsInput where
  user_id : Nat
  limit : Nat
  offset : Nat
deriving Repr, DecidableEq

/-- Raw `getDocuments` request before zod parsing: `limit` and `offset`
may be absent, and arrive as unchecked integers. -/
structure GetDocumentsRaw where
  user_id : Nat
  limit : Option Int
  offset : Option Int
deriving Repr, DecidableEq

/-- The zod parse of `getDocumentsInputSchema`: `limit` positive, at
most 100, defaulting to 20; `offset` nonnegative, defaulting to 0. -/
def parseGetDocumentsInput (raw : GetDocumentsRaw) : Except String GetDocumentsInput :=
  let l := raw.limit.getD 20
  let o := raw.offset.getD 0
  if 0 < l ∧ l ≤ 100 ∧ 0 ≤ o then
    Except.ok ⟨raw.user_id, l.toNat, o.toNat⟩
  else
    Except.error "validation"

/-- `getDocuments` (implemented variant shipped alongside
`handlers/get_documents.ts`): filter by `user_id`, order by descending
`updated_at`, then apply SQL `LIMIT limit OFFSET offset`. -/
def getDocuments (db : DB) (input : GetDocumentsInput) : List Document :=
  ((((db.documents.filter fun d => d.user_id == input.user_id).insertionSort
      newestFirst).drop input.offset).take input.limit)

/-- `getSources` (`handlers/get_sources.ts`): check the document exists
first (throwing `Document not found` otherwise), then select all sources
of the document. -/
def getSources (db : DB) (document_id : Nat) : Except String (List Source) :=
  if (db.documents.filter fun d => d.id == document_id).length == 0 then
    Except.error "Document not found"
  else
    Except.ok (db.sources.filter fun s => s.document_id == document_id)

/-- Parsed `AiAssistanceRequest` (`schema.ts`, `aiAssistanceRequestSchema`). -/
structure AiAssistanceRequest where
  document_id : Nat
  prompt : String
  context : Option String
  assistance_type : AssistanceType
deriving Repr, DecidableEq

/-- JS `String.prototype.substring(0, n)`, used for the 500-character
source excerpt in `ai_assistance.ts`. -/
def jsSubstringTo (s : String) (n : Nat) : String := ⟨s.data.take n⟩

/-- The context blob assembled by `requestAiAssistance`
(`handlers/ai_assistance.ts`): document title and content, the optional
caller context (appended only when JS-truthy, i.e. present and
non-empty), then each source's title with a 500-character excerpt. -/
def buildContext (document : Document) (context : Option String)
    (sources : List Source) : String :=
  let c1 := "Document Title: " ++ document.title ++ "\n"
  let c2 := c1 ++ "Document Content: " ++ document.content ++ "\n"
  let c3 :=
    match context with
    | some ctx => if ctx == "" then c2 else c2 ++ "Selected Context: " ++ ctx ++ "\n"
    | none => c2
  if sources.length > 0 then
    c3 ++ "\nAvailable Sources:\n" ++
      String.join (sources.map fun s =>
        "- " ++ s.title ++ ": " ++ jsSubstringTo s.content 500 ++ "...\n")
  else
    c3

/-- `requestAiAssistance` (`handlers/ai_assistance.ts`): look up the
document by id (no ownership check), gather its sources, assemble the
context blob, produce the templated response for the assistance type,
and insert the prompt/response row.  Returns the thrown error message
and the untouched store when the document is absent. -/
def requestAiAssistance (db : DB) (input : AiAssistanceRequest)
    (now newId : Nat) : Except String AiResponse × DB :=
  match db.documents.filter fun d => d.id == input.document_id with
  | [] => (Except.error "Document not found", db)
  | document :: _ =>
    let sources := db.sources.filter fun s => s.document_id == input.document_id
    let contextContent := buildContext document input.context sources
    let aiResponseContent :=
      match input.assistance_type with
      | AssistanceType.write =>
          "Based on your prompt \"" ++ input.prompt ++
            "\" and the document context, here's some content to help with your writing..."
      | AssistanceType.edit =>
          "Here are some editing suggestions for your text: \"" ++ input.prompt ++ "\"..."
      | AssistanceType.study_guide =>
          "Study Guide based on \"" ++ document.title ++
            "\":\n\nKey Points:\n- Important concept 1\n- Important concept 2\n\n" ++
            "Questions for Review:\n1. What is...?\n2. How does...?"
      | AssistanceType.summarize =>
          "Summary of \"" ++ document.title ++
            "\":\n\nThis document covers the main topics of... The key insights include..."
    let _ := contextContent
    let row : AiResponse :=
      { id := newId,
        document_id := input.document_id,
        request_prompt := input.prompt,
        response_content := aiResponseContent,
        assistance_type := input.assistance_type,
        created_at := now }
    (Except.ok row, { db with ai_responses := db.ai_responses ++ [row] })

/-- JS `String.prototype.trim`: strip leading and trailing whitespace. -/
def jsTrim (s : String) : String :=
  ⟨(((s.data.dropWhile Char.isWhitespace).reverse.dropWhile Char.isWhitespace).reverse)⟩

/-- JS `a || b` on strings: the empty string is falsy. -/
def jsOr (a b : String) : String := if a == "" then b else a

/-- One step of the regex `/<[^>]*>/g` replacement used by the client
word counter: on `<`, if a closing `>` follows, drop through it;
otherwise keep the character.  `fuel` bounds recursion; it is
initialised to the list length, which one character of progress per
step never exhausts. -/
def stripHtmlGo : Nat → List Char → List Char
  | _, [] => []
  | 0, l => l
  | fuel + 1, c :: rest =>
    if c == '<' && rest.contains '>' then
      stripHtmlGo fuel ((rest.dropWhile fun d => d != '>').drop 1)
    else
      c :: stripHtmlGo fuel rest

/-- JS `content.replace(/<[^>]*>/g, '')`: the HTML-tag strip applied to
document content before word counting. -/
def stripHtml (s : String) : String := ⟨stripHtmlGo s.data.length s.data⟩

/-- Counts maximal whitespace-free runs: JS
`text.split(/\s+/).filter(w => w.length > 0).length`. -/
def wordCountGo : List Char → Bool → Nat
  | [], _ => 0
  | c :: rest, inWord =>
    if c.isWhitespace then wordCountGo rest false
    else (if inWord then 0 else 1) + wordCountGo rest true

/-- The client's plain-text word count (`DocumentEditor.tsx` /
`AiAssistant.tsx`): strip HTML tags, then count whitespace-separated
words. -/
def jsWordCount (s : String) : Nat := wordCountGo (stripHtml s).data false

/-- Boolean substring test over the character list of a string. -/
def charsContain (pat : List Char) : List Char → Bool
  | [] => pat.isEmpty
  | c :: rest => pat.isPrefixOf (c :: rest) || charsContain pat rest

/-- Whether `pat` occurs as a contiguous substring of `s`. -/
def strContains (s pat : String) : Bool := charsContain pat.data s.data

/-- The editor component state relevant to auto-save
(`DocumentEditor.tsx`): the current document plus the `title`,
`content`, `isSaving`, `lastSaved` and `hasUnsavedChanges` hooks. -/
structure EditorState where
  document : Document
  title : String
  content : String
  isSaving : Bool
  lastSaved : Option Nat
  hasUnsavedChanges : Bool
deriving Repr, DecidableEq

/-- Outcome of the `trpc.updateDocument.mutate` call as observed by
`saveDocument`: a returned document, a `null` result, or a thrown
transport/server error. -/
inductive SaveOutcome where
  | ok (doc : Document)
  | nullResult
  | err
deriving Repr, DecidableEq

/-- `saveDocument` (`DocumentEditor.tsx`): no-op without unsaved
changes; otherwise submit `title.trim() || 'Untitled Document'` and the
current content.  A `null` reply or a thrown error is replaced by a
locally synthesized document; every branch clears `hasUnsavedChanges`,
records `lastSaved` and clears `isSaving`. -/
def saveDocument (st : EditorState) (outcome : SaveOutcome) (now : Nat) : EditorState :=
  if !st.hasUnsavedChanges then st
  else
    let submittedTitle := jsOr (jsTrim st.title) "Untitled Document"
    match outcome with
    | SaveOutcome.ok doc =>
      { st with
          document := doc,
          lastSaved := some now,
          hasUnsavedChanges := false,
          isSaving := false }
    | SaveOutcome.nullResult =>
      { st with
          document :=
            { st.document with
                title := jsOr submittedTitle st.document.title,
                content := jsOr st.content st.document.content,
                updated_at := now },
          lastSaved := some now,
          hasUnsavedChanges := false,
          isSaving := false }
    | SaveOutcome.err =>
      { st with
          document :=
            { st.document with
                title := submittedTitle,
                content := st.content,
                updated_at := now },
          lastSaved := some now,
          hasUnsavedChanges := false,
          isSaving := false }

/-! ### Helper lemmas and sample data -/

lemma head?_take_one {α : Type} (l : List α) : (l.take 1).head? = l.head? := by
  cases l <;> rfl

/-- With pairwise-distinct primary keys, filtering the documents table
by one id yields exactly the matching row. -/
lemma filter_id_eq_singleton {docs : List Document} {d : Document}
    (hnd : (docs.map Document.id).Nodup) (hmem : d ∈ docs) :
    docs.filter (fun x => x.id == d.id) = [d] := by
  induction docs with
  | nil => cases hmem
  | cons e rest ih =>
    rw [List.map_cons, List.nodup_cons] at hnd
    obtain ⟨hnotin, hnd'⟩ := hnd
    rcases List.mem_cons.mp hmem with he | hrest
    · subst he
      have hfil : rest.filter (fun x => x.id == d.id) = [] := by
        rw [List.filter_eq_nil_iff]
        intro a ha hba
        rw [beq_iff_eq] at hba
        exact hnotin (List.mem_map.mpr ⟨a, ha, hba⟩)
      simp [List.filter_cons, hfil]
    · have hne : (e.id == d.id) = false := by
        rw [beq_eq_false_iff_ne]
        intro hEq
        exact hnotin (hEq ▸ List.mem_map_of_mem Document.id hrest)
      rw [List.filter_cons, hne]
      simp only [Bool.false_eq_true, if_false]
      exact ih hnd' hrest

def sampleUser : User :=
  { id := 1, email := "user@example.com", name := "Demo User", created_at := 0 }

def sampleDoc : Document :=
  { id := 1, title := "Test Document", content := "one two three",
    user_id := 1, created_at := 0, updated_at := 3 }

def sampleDoc2 : Document :=
  { id := 2, title := "Other Document", content := "other stuff",
    user_id := 2, created_at := 0, updated_at := 5 }

def sampleSource : Source :=
  { id := 1, document_id := 1, title := "A Source", content := "source text",
    source_type := SourceType.text, source_url := none, created_at := 1 }

def sampleAi : AiResponse :=
  { id := 1, document_id := 1, request_prompt := "p", response_content := "r",
    assistance_type := AssistanceType.write, created_at := 2 }

def sampleDB : DB :=
  { users := [sampleUser], documents := [sampleDoc, sampleDoc2],
    sources := [sampleSource], ai_responses := [sampleAi] }

/-- A store in which user 7 owns five documents, for exercising the
pagination scenario of the spec's testable properties. -/
def pageDB : DB :=
  { users := [{ id := 7, email := "p@example.com", name := "Pager", created_at := 0 }],
    documents :=
      [ { id := 11, title := "D1", content := "", user_id := 7, created_at := 0, updated_at := 1 },
        { id := 12, title := "D2", content := "", user_id := 7, created_at := 0, updated_at := 4 },
        { id := 13, title := "D3", content := "", user_id := 7, created_at := 0, updated_at := 2 },
        { id := 14, title := "D4", content := "", user_id := 7, created_at := 0, updated_at := 5 },
        { id := 15, title := "D5", content := "", user_id := 7, created_at := 0, updated_at := 3 } ],
    sources := [], ai_responses := [] }

lemma getDocument_none_iff (db : DB) (id uid : Nat) :
    getDocument db id uid = none ↔
      ∀ d ∈ db.documents, ¬(d.id = id ∧ d.user_id = uid) := by
  rw [getDocument, head?_take_one, List.head?_eq_none_iff, List.filter_eq_nil_iff]
  constructor
  · intro h d hd hdp
    have := h d hd
    simp [hdp.1, hdp.2] at this
  · intro h d hd hb
    rw [Bool.and_eq_true, beq_iff_eq, beq_iff_eq] at hb
    exact h d hd hb

lemma getDocument_some_mem (db : DB) (id uid : Nat) (d : Document)
    (hd : getDocument db id uid = some d) :
    d ∈ db.documents ∧ d.id = id ∧ d.user_id = uid := by
  rw [getDocument, head?_take_one] at hd
  have hmem : d ∈ db.documents.filter (fun x => x.id == id && x.user_id == uid) := by
    cases hfil : db.documents.filter (fun x => x.id == id && x.user_id == uid) with
    | nil => rw [hfil] at hd; cases hd
    | cons a rest =>
      rw [hfil] at hd
      simp only [List.head?_cons, Option.some.injEq] at hd
      subst hd
      exact List.mem_cons_self _ _
  obtain ⟨hmem', hp⟩ := List.mem_filter.mp hmem
  rw [Bool.and_eq_true, beq_iff_eq, beq_iff_eq] at hp
  exact ⟨hmem', hp⟩

lemma deleteDocument_fst_true_iff (db : DB) (id uid : Nat) :
    (deleteDocument db id uid).1 = true ↔
      ∃ d ∈ db.documents, d.id = id ∧ d.user_id = uid := by
  have hfst : (deleteDocument db id uid).1 =
      decide (0 < (db.documents.filter fun d => d.id == id && d.user_id == uid).length) :=
    rfl
  rw [hfst, decide_eq_true_eq]
  constructor
  · intro h
    obtain ⟨d, hd⟩ := List.exists_mem_of_length_pos h
    obtain ⟨hmem, hp⟩ := List.mem_filter.mp hd
    rw [Bool.and_eq_true, beq_iff_eq, beq_iff_eq] at hp
    exact ⟨d, hmem, hp⟩
  · rintro ⟨d, hmem, h1, h2⟩
    exact List.length_pos_of_mem
      (List.mem_filter.mpr ⟨hmem, by rw [Bool.and_eq_true, beq_iff_eq, beq_iff_eq]; exact ⟨h1, h2⟩⟩)

lemma deleteDocument_fst_false (db : DB) (id uid : Nat)
    (h : ∀ d ∈ db.documents, ¬(d.id = id ∧ d.user_id = uid)) :
    (deleteDocument db id uid).1 = false := by
  rcases Bool.eq_false_or_eq_true (deleteDocument db id uid).1 with hb | hb
  · obtain ⟨d, hd, h1, h2⟩ := (deleteDocument_fst_true_iff db id uid).mp hb
    exact absurd ⟨h1, h2⟩ (h d hd)
  · exact hb

/-! ### Claim theorems -/

/-- C7: `getDocument` filters by both `id` and `user_id`, returning the
`null` sentinel exactly when no document matches both — so an id owned
by a different user is indistinguishable from a non-existent id. -/
theorem getDocument_filters_by_id_and_user (db : DB) (id uid : Nat) :
    (getDocument db id uid = none ↔
      ∀ d ∈ db.documents, ¬(d.id = id ∧ d.user_id = uid))
    ∧ (∀ d, getDocument db id uid = some d →
        d ∈ db.documents ∧ d.id = id ∧ d.user_id = uid) :=
  ⟨getDocument_none_iff db id uid, getDocument_some_mem db id uid⟩

/-- C7 witness: in the sample store, document 1 belongs to user 1, so
user 2's lookup of it yields the `null` sentinel. -/
theorem getDocument_filters_by_id_and_user_witness :
    getDocument sampleDB 1 2 = none :=
  (getDocument_filters_by_id_and_user sampleDB 1 2).1.mpr (by decide)

/-- C6: `getSources` raises `Document not found` for a non-existent
document (never an empty list), and returns all sources attached to an
existing document. -/
theorem getSources_errors_on_missing_document (db : DB) (docId : Nat) :
    ((∀ d ∈ db.documents, d.id ≠ docId) →
      getSources db docId = Except.error "Document not found")
    ∧ (∀ d, d ∈ db.documents → d.id = docId →
        getSources db docId = Except.ok (db.sources.filter fun s => s.document_id == docId))
    ∧ (∀ l, getSources db docId = Except.ok l →
        ∀ s, s ∈ l ↔ s ∈ db.sources ∧ s.document_id = docId) := by
  refine ⟨?_, ?_, ?_⟩
  · intro h
    have hfil : db.documents.filter (fun d => d.id == docId) = [] := by
      rw [List.filter_eq_nil_iff]
      intro a ha hba
      rw [beq_iff_eq] at hba
      exact h a ha hba
    rw [getSources, hfil]
    rfl
  · intro d hd hid
    have hne : (db.documents.filter fun x => x.id == docId).length ≠ 0 := by
      intro h0
      have : d ∈ db.documents.filter fun x => x.id == docId :=
        List.mem_filter.mpr ⟨hd, by rw [beq_iff_eq]; exact hid⟩
      rw [List.length_eq_zero.mp h0] at this
      cases this
    rw [getSources, if_neg (by simpa using hne)]
  · intro l hl s
    rw [getSources] at hl
    by_cases hz : (db.documents.filter fun d => d.id == docId).length = 0
    · rw [if_pos (by simpa using hz)] at hl
      cases hl
    · rw [if_neg (by simpa using hz)] at hl
      cases hl
      constructor
      · intro hs
        obtain ⟨h1, h2⟩ := List.mem_filter.mp hs
        rw [beq_iff_eq] at h2
        exact ⟨h1, h2⟩
      · intro ⟨h1, h2⟩
        exact List.mem_filter.mpr ⟨h1, by rw [beq_iff_eq]; exact h2⟩

/-- C6 witness: in the sample store, id 99 names no document and
`getSources` throws, while document 1 yields its attached source. -/
theorem getSources_errors_on_missing_document_witness :
    getSources sampleDB 99 = Except.error "Document not found"
    ∧ getSources sampleDB 1 = Except.ok [sampleSource] := by
  constructor
  · exact (getSources_errors_on_missing_document sampleDB 99).1 (by decide)
  · have h := (getSources_errors_on_missing_document sampleDB 1).2.1 sampleDoc
      (by simp [sampleDB]) (by decide)
    rw [h]
    rfl

/-- C1: `deleteDocument` returns true iff a document matching both `id`
and `user_id` existed; a false result leaves the store untouched, and a
true result removes the document and cascades to all its sources and AI
responses while keeping rows of other documents. -/
theorem deleteDocument_requires_owner_and_cascades (db : DB) (id uid : Nat) :
    ((deleteDocument db id uid).1 = true ↔
      ∃ d ∈ db.documents, d.id = id ∧ d.user_id = uid)
    ∧ ((deleteDocument db id uid).1 = false → (deleteDocument db id uid).2 = db)
    ∧ ((deleteDocument db id uid).1 = true →
        (∀ d ∈ (deleteDocument db id uid).2.documents, ¬(d.id = id ∧ d.user_id = uid))
        ∧ (∀ s ∈ (deleteDocument db id uid).2.sources, s.document_id ≠ id)
        ∧ (∀ r ∈ (deleteDocument db id uid).2.ai_responses, r.document_id ≠ id)
        ∧ (∀ s ∈ db.sources, s.document_id ≠ id →
            s ∈ (deleteDocument db id uid).2.sources)
        ∧ (∀ r ∈ db.ai_responses, r.document_id ≠ id →
            r ∈ (deleteDocument db id uid).2.ai_responses)) := by
  have hfst : (deleteDocument db id uid).1 =
      decide (0 < (db.documents.filter fun d => d.id == id && d.user_id == uid).length) :=
    rfl
  refine ⟨?_, ?_, ?_⟩
  · rw [hfst, decide_eq_true_eq]
    constructor
    · intro h
      obtain ⟨d, hd⟩ := List.exists_mem_of_length_pos h
      obtain ⟨hmem, hp⟩ := List.mem_filter.mp hd
      rw [Bool.and_eq_true, beq_iff_eq, beq_iff_eq] at hp
      exact ⟨d, hmem, hp⟩
    · rintro ⟨d, hmem, h1, h2⟩
      exact List.length_pos_of_mem
        (List.mem_filter.mpr ⟨hmem, by rw [Bool.and_eq_true, beq_iff_eq, beq_iff_eq]; exact ⟨h1, h2⟩⟩)
  · intro h
    rw [hfst] at h
    have hlen : (db.documents.filter fun d => d.id == id && d.user_id == uid).length = 0 := by
      rcases Nat.eq_zero_or_pos
        (db.documents.filter fun d => d.id == id && d.user_id == uid).length with h0 | h0
      · exact h0
      · rw [decide_eq_true h0] at h; cases h
    have hnil : db.documents.filter (fun d => d.id == id && d.user_id == uid) = [] :=
      List.length_eq_zero.mp hlen
    have hnone : ∀ d ∈ db.documents, (d.id == id && d.user_id == uid) = false := by
      intro d hd
      have := List.filter_eq_nil_iff.mp hnil d hd
      exact Bool.not_eq_true _ ▸ (by simpa using this)
    have h1 : db.documents.filter (fun d => !(d.id == id && d.user_id == uid)) = db.documents :=
      List.filter_eq_self.mpr (fun d hd => by rw [hnone d hd]; rfl)
    show { db with
        documents := db.documents.filter fun d => !(d.id == id && d.user_id == uid),
        sources := db.sources.filter fun s =>
          !(((db.documents.filter fun d => d.id == id && d.user_id == uid).map
              (fun d => d.id)).contains s.document_id),
        ai_responses := db.ai_responses.filter fun r =>
          !(((db.documents.filter fun d => d.id == id && d.user_id == uid).map
              (fun d => d.id)).contains r.document_id) } = db
    rw [hnil, h1]
    simp
  · intro h
    rw [hfst, decide_eq_true_eq] at h
    obtain ⟨d0, hd0⟩ := List.exists_mem_of_length_pos h
    have hid0 : d0.id = id := by
      have := (List.mem_filter.mp hd0).2
      rw [Bool.and_eq_true, beq_iff_eq, beq_iff_eq] at this
      exact this.1
    have hidmem : id ∈ (db.documents.filter fun d => d.id == id && d.user_id == uid).map
        (fun d => d.id) :=
      List.mem_map.mpr ⟨d0, hd0, hid0⟩
    have hids : ∀ x ∈ (db.documents.filter fun d => d.id == id && d.user_id == uid).map
        (fun d => d.id), x = id := by
      intro x hx
      obtain ⟨d, hd, hdx⟩ := List.mem_map.mp hx
      have := (List.mem_filter.mp hd).2
      rw [Bool.and_eq_true, beq_iff_eq, beq_iff_eq] at this
      rw [← hdx]
      exact this.1
    refine ⟨?_, ?_, ?_, ?_, ?_⟩
    · intro d hd hdp
      have := (List.mem_filter.mp hd).2
      simp only [Bool.not_eq_true', Bool.and_eq_false_iff, beq_eq_false_iff_ne] at this
      rcases this with h' | h'
      · exact h' hdp.1
      · exact h' hdp.2
    · intro s hs hsid
      have hmf := (List.mem_filter.mp hs).2
      rw [hsid] at hmf
      simp only [Bool.not_eq_true'] at hmf
      have hnm : id ∉ (db.documents.filter fun d => d.id == id && d.user_id == uid).map
          (fun d => d.id) := by simpa using hmf
      exact hnm hidmem
    · intro r hr hrid
      have hmf := (List.mem_filter.mp hr).2
      rw [hrid] at hmf
      simp only [Bool.not_eq_true'] at hmf
      have hnm : id ∉ (db.documents.filter fun d => d.id == id && d.user_id == uid).map
          (fun d => d.id) := by simpa using hmf
      exact hnm hidmem
    · intro s hs hsid
      refine List.mem_filter.mpr ⟨hs, ?_⟩
      simp only [Bool.not_eq_true']
      by_contra hc
      rw [Bool.not_eq_false] at hc
      have : s.document_id ∈ (db.documents.filter fun d => d.id == id && d.user_id == uid).map
          (fun d => d.id) := by simpa using hc
      exact hsid (hids _ this)
    · intro r hr hrid
      refine List.mem_filter.mpr ⟨hr, ?_⟩
      simp only [Bool.not_eq_true']
      by_contra hc
      rw [Bool.not_eq_false] at hc
      have : r.document_id ∈ (db.documents.filter fun d => d.id == id && d.user_id == uid).map
          (fun d => d.id) := by simpa using hc
      exact hrid (hids _ this)

/-- C1 witness: deleting document 1 as its owner (user 1) in the sample
store succeeds and leaves no source of that document behind. -/
theorem deleteDocument_requires_owner_and_cascades_witness :
    (deleteDocument sampleDB 1 1).1 = true
    ∧ (∀ s ∈ (deleteDocument sampleDB 1 1).2.sources, s.document_id ≠ 1)
    ∧ (deleteDocument sampleDB 1 2).1 = false
    ∧ (deleteDocument sampleDB 1 2).2 = sampleDB := by
  have h := deleteDocument_requires_owner_and_cascades sampleDB 1 1
  have h' := deleteDocument_requires_owner_and_cascades sampleDB 1 2
  have htrue : (deleteDocument sampleDB 1 1).1 = true :=
    h.1.mpr ⟨sampleDoc, by simp [sampleDB], by decide⟩
  have hfalse : (deleteDocument sampleDB 1 2).1 = false := by
    rcases Bool.eq_false_or_eq_true (deleteDocument sampleDB 1 2).1 with hb | hb
    · obtain ⟨d, hd, h1, h2⟩ := h'.1.mp hb
      have : d = sampleDoc ∨ d = sampleDoc2 := by simpa [sampleDB] using hd
      rcases this with rfl | rfl
      · exact absurd h2 (by decide)
      · exact absurd h1 (by decide)
    · exact hb
  exact ⟨htrue, (h.2.2 htrue).2.1, hfalse, h'.2.1 hfalse⟩

/-- C2: `updateDocument` matches its target by `id` alone and performs
no ownership check: any existing document is updated no matter which
user owns it, while `getDocument` and `deleteDocument` with a
non-owner's `user_id` return the sentinel/false for the same id. -/
theorem updateDocument_skips_ownership_check (db : DB) (input : UpdateDocumentInput)
    (now : Nat) (d : Document)
    (hnd : (db.documents.map Document.id).Nodup)
    (hmem : d ∈ db.documents) (hid : d.id = input.id) :
    (updateDocument db input now).1 = some (applyUpdate input now d)
    ∧ applyUpdate input now d ∈ (updateDocument db input now).2.documents
    ∧ ∀ uid, uid ≠ d.user_id →
        getDocument db input.id uid = none
        ∧ (deleteDocument db input.id uid).1 = false := by
  have hfil : db.documents.filter (fun x => x.id == input.id) = [d] := by
    rw [← hid]
    exact filter_id_eq_singleton hnd hmem
  have honly : ∀ x ∈ db.documents, x.id = input.id → x = d := by
    intro x hx hx1
    have hxf : x ∈ db.documents.filter (fun y => y.id == input.id) :=
      List.mem_filter.mpr ⟨hx, by rw [beq_iff_eq]; exact hx1⟩
    rw [hfil] at hxf
    simpa using hxf
  refine ⟨?_, ?_, ?_⟩
  · show ((db.documents.filter fun x => x.id == input.id).map (applyUpdate input now)).head?
        = some (applyUpdate input now d)
    rw [hfil]
    rfl
  · show applyUpdate input now d ∈ db.documents.map fun x =>
        if x.id == input.id then applyUpdate input now x else x
    have hm := List.mem_map_of_mem
      (fun x => if x.id == input.id then applyUpdate input now x else x) hmem
    simpa [hid] using hm
  · intro uid huid
    have hnomatch : ∀ x ∈ db.documents, ¬(x.id = input.id ∧ x.user_id = uid) := by
      rintro x hx ⟨hx1, hx2⟩
      have hxd := honly x hx hx1
      subst hxd
      exact huid hx2.symm
    exact ⟨(getDocument_none_iff db input.id uid).mpr hnomatch,
      deleteDocument_fst_false db input.id uid hnomatch⟩

/-- C2 witness: in the sample store, document 2 belongs to user 2, yet
an update naming id 2 succeeds, while user 1's get/delete of id 2
return the sentinel/false. -/
theorem updateDocument_skips_ownership_check_witness :
    (updateDocument sampleDB ⟨2, some "New Title", none⟩ 9).1 =
      some (applyUpdate ⟨2, some "New Title", none⟩ 9 sampleDoc2)
    ∧ getDocument sampleDB 2 1 = none
    ∧ (deleteDocument sampleDB 2 1).1 = false := by
  have h := updateDocument_skips_ownership_check sampleDB ⟨2, some "New Title", none⟩ 9
    sampleDoc2 (by decide) (by simp [sampleDB]) (by decide)
  exact ⟨h.1, (h.2.2 1 (by decide)).1, (h.2.2 1 (by decide)).2⟩

/-- C4: a successful `updateDocument` changes only the supplied fields
of the matched row (absent `title`/`content` keep their stored values),
always sets `updated_at` to the current time — strictly after the
pre-update value once the clock has advanced — and leaves every other
document untouched. -/
theorem updateDocument_partial_fields_and_timestamp (db : DB)
    (input : UpdateDocumentInput) (now : Nat) (d : Document)
    (hnd : (db.documents.map Document.id).Nodup)
    (hmem : d ∈ db.documents) (hid : d.id = input.id)
    (hclock : d.updated_at < now) :
    ∃ d', (updateDocument db input now).1 = some d'
      ∧ d'.title = input.title.getD d.title
      ∧ d'.content = input.content.getD d.content
      ∧ d'.id = d.id ∧ d'.user_id = d.user_id ∧ d'.created_at = d.created_at
      ∧ d'.updated_at = now ∧ d.updated_at < d'.updated_at
      ∧ ∀ e ∈ db.documents, e.id ≠ input.id →
          e ∈ (updateDocument db input now).2.documents := by
  have hfil : db.documents.filter (fun x => x.id == input.id) = [d] := by
    rw [← hid]
    exact filter_id_eq_singleton hnd hmem
  refine ⟨applyUpdate input now d, ?_, rfl, rfl, rfl, rfl, rfl, rfl, hclock, ?_⟩
  · show ((db.documents.filter fun x => x.id == input.id).map (applyUpdate input now)).head?
        = some (applyUpdate input now d)
    rw [hfil]
    rfl
  · intro e he hene
    show e ∈ db.documents.map fun x =>
        if x.id == input.id then applyUpdate input now x else x
    have hm := List.mem_map_of_mem
      (fun x => if x.id == input.id then applyUpdate input now x else x) he
    simpa [hene] using hm

/-- C4 witness: updating document 1 in the sample store with only a new
content leaves the title unchanged and refreshes `updated_at`. -/
theorem updateDocument_partial_fields_and_timestamp_witness :
    ∃ d', (updateDocument sampleDB ⟨1, none, some "new body"⟩ 9).1 = some d'
      ∧ d'.title = (none : Option String).getD sampleDoc.title
      ∧ d'.content = (some "new body").getD sampleDoc.content
      ∧ d'.id = sampleDoc.id ∧ d'.user_id = sampleDoc.user_id
      ∧ d'.created_at = sampleDoc.created_at
      ∧ d'.updated_at = 9 ∧ sampleDoc.updated_at < d'.updated_at
      ∧ ∀ e ∈ sampleDB.documents, e.id ≠ (1 : Nat) →
          e ∈ (updateDocument sampleDB ⟨1, none, some "new body"⟩ 9).2.documents :=
  updateDocument_partial_fields_and_timestamp sampleDB ⟨1, none, some "new body"⟩ 9
    sampleDoc (by decide) (by simp [sampleDB]) (by decide) (by decide)

/-- C5: `requestAiAssistance` fails with `Document not found` when the
document id matches nothing, no failure ever touches the store, and a
success appends exactly one response row — returned to the caller and
holding the original prompt and assistance type — leaving every other
table unchanged. -/
theorem requestAiAssistance_not_found_and_atomic (db : DB)
    (input : AiAssistanceRequest) (now newId : Nat) :
    ((∀ d ∈ db.documents, d.id ≠ input.document_id) →
        (requestAiAssistance db input now newId).1 = Except.error "Document not found"
        ∧ (requestAiAssistance db input now newId).2 = db)
    ∧ (∀ e, (requestAiAssistance db input now newId).1 = Except.error e →
        (requestAiAssistance db input now newId).2 = db)
    ∧ (∀ row, (requestAiAssistance db input now newId).1 = Except.ok row →
        (requestAiAssistance db input now newId).2.ai_responses = db.ai_responses ++ [row]
        ∧ row.request_prompt = input.prompt
        ∧ row.assistance_type = input.assistance_type
        ∧ row.document_id = input.document_id
        ∧ row.created_at = now
        ∧ (requestAiAssistance db input now newId).2.documents = db.documents
        ∧ (requestAiAssistance db input now newId).2.sources = db.sources
        ∧ (requestAiAssistance db input now newId).2.users = db.users) := by
  cases hfil : db.documents.filter (fun d => d.id == input.document_id) with
  | nil =>
    have hre : requestAiAssistance db input now newId = (Except.error "Document not found", db) := by
      unfold requestAiAssistance
      rw [hfil]
    refine ⟨fun _ => ⟨by rw [hre], by rw [hre]⟩, fun e _ => by rw [hre], ?_⟩
    intro row hrow
    rw [hre] at hrow
    cases hrow
  | cons document rest =>
    have hdm : document ∈ db.documents.filter (fun d => d.id == input.document_id) := by
      rw [hfil]
      exact List.mem_cons_self _ _
    obtain ⟨hdmem, hdid⟩ := List.mem_filter.mp hdm
    rw [beq_iff_eq] at hdid
    refine ⟨?_, ?_, ?_⟩
    · intro h
      exact absurd hdid (h document hdmem)
    · intro e he
      unfold requestAiAssistance at he
      rw [hfil] at he
      simp at he
    · intro row hrow
      unfold requestAiAssistance at hrow ⊢
      rw [hfil] at hrow ⊢
      simp only at hrow
      cases hrow
      exact ⟨rfl, rfl, rfl, rfl, rfl, rfl, rfl, rfl⟩

/-- C5 witness: in the sample store, id 99 yields the `Document not
found` error with the store untouched, and a request against document 1
appends exactly one row holding the prompt and assistance type. -/
theorem requestAiAssistance_not_found_and_atomic_witness :
    (requestAiAssistance sampleDB ⟨99, "help", none, AssistanceType.write⟩ 7 10).1 =
      Except.error "Document not found"
    ∧ (requestAiAssistance sampleDB ⟨99, "help", none, AssistanceType.write⟩ 7 10).2 = sampleDB
    ∧ ∀ row, (requestAiAssistance sampleDB ⟨1, "help", none, AssistanceType.write⟩ 7 10).1 =
        Except.ok row →
        (requestAiAssistance sampleDB ⟨1, "help", none, AssistanceType.write⟩ 7 10).2.ai_responses =
          sampleDB.ai_responses ++ [row]
        ∧ row.request_prompt = "help" := by
  have h99 := requestAiAssistance_not_found_and_atomic sampleDB
    ⟨99, "help", none, AssistanceType.write⟩ 7 10
  have h1 := requestAiAssistance_not_found_and_atomic sampleDB
    ⟨1, "help", none, AssistanceType.write⟩ 7 10
  refine ⟨(h99.1 (by decide)).1, (h99.1 (by decide)).2, ?_⟩
  intro row hrow
  exact ⟨(h1.2.2 row hrow).1, (h1.2.2 row hrow).2.1⟩

/-- C8: `getDocuments` returns only the requested user's documents,
newest-`updated_at`-first, paginated by SQL limit/offset; two
consecutive 2-item pages over 5 documents are disjoint and cover 4 of
them; a user with no documents gets an empty list; and the zod schema
defaults `limit`/`offset` to 20/0 with `limit` confined to [1,100]. -/
theorem getDocuments_pagination_spec :
    (∀ (db : DB) (input : GetDocumentsInput) (d : Document),
        d ∈ getDocuments db input → d.user_id = input.user_id)
    ∧ (∀ (db : DB) (input : GetDocumentsInput),
        (getDocuments db input).Sorted newestFirst)
    ∧ (∀ (db : DB) (input : GetDocumentsInput),
        (∀ d ∈ db.documents, d.user_id ≠ input.user_id) → getDocuments db input = [])
    ∧ (∀ (db : DB) (uid : Nat),
        ((db.documents.filter fun d => d.user_id == uid).map Document.id).Nodup →
        (db.documents.filter fun d => d.user_id == uid).length = 5 →
        (getDocuments db ⟨uid, 2, 0⟩).length = 2
        ∧ (getDocuments db ⟨uid, 2, 2⟩).length = 2
        ∧ (∀ x ∈ getDocuments db ⟨uid, 2, 0⟩, ∀ y ∈ getDocuments db ⟨uid, 2, 2⟩,
            x.id ≠ y.id)
        ∧ (∀ x ∈ getDocuments db ⟨uid, 2, 0⟩ ++ getDocuments db ⟨uid, 2, 2⟩,
            x ∈ db.documents ∧ x.user_id = uid))
    ∧ (∀ uid : Nat, parseGetDocumentsInput ⟨uid, none, none⟩ = Except.ok ⟨uid, 20, 0⟩)
    ∧ (∀ raw parsed, parseGetDocumentsInput raw = Except.ok parsed →
        1 ≤ parsed.limit ∧ parsed.limit ≤ 100) := by
  have hsub : ∀ (db : DB) (input : GetDocumentsInput),
      List.Sublist (getDocuments db input)
        ((db.documents.filter fun d => d.user_id == input.user_id).insertionSort newestFirst) :=
    fun db input => (List.take_sublist _ _).trans (List.drop_sublist _ _)
  refine ⟨?_, ?_, ?_, ?_, ?_, ?_⟩
  · intro db input d hd
    have h1 : d ∈ (db.documents.filter fun x => x.user_id == input.user_id).insertionSort
        newestFirst := (hsub db input).subset hd
    have h2 : d ∈ db.documents.filter fun x => x.user_id == input.user_id :=
      (List.perm_insertionSort newestFirst _).mem_iff.mp h1
    exact beq_iff_eq.mp (List.mem_filter.mp h2).2
  · intro db input
    exact (List.sorted_insertionSort newestFirst _).sublist (hsub db input)
  · intro db input h
    have hfil : db.documents.filter (fun x => x.user_id == input.user_id) = [] :=
      List.filter_eq_nil_iff.mpr (fun a ha hba => h a ha (beq_iff_eq.mp hba))
    show ((((db.documents.filter fun x => x.user_id == input.user_id).insertionSort
        newestFirst).drop input.offset).take input.limit) = []
    rw [hfil]
    simp
  · intro db uid hnd hlen
    have hperm : List.Perm
        ((db.documents.filter fun d => d.user_id == uid).insertionSort newestFirst)
        (db.documents.filter fun d => d.user_id == uid) :=
      List.perm_insertionSort newestFirst _
    have hSlen : ((db.documents.filter fun d => d.user_id == uid).insertionSort
        newestFirst).length = 5 := hperm.length_eq.trans hlen
    have hSnd : (((db.documents.filter fun d => d.user_id == uid).insertionSort
        newestFirst).map Document.id).Nodup := (hperm.map Document.id).nodup_iff.mpr hnd
    have h0 : getDocuments db ⟨uid, 2, 0⟩ =
        ((db.documents.filter fun d => d.user_id == uid).insertionSort newestFirst).take 2 := by
      show ((((db.documents.filter fun d => d.user_id == uid).insertionSort
          newestFirst).drop 0).take 2) = _
      rw [List.drop_zero]
    have h2 : getDocuments db ⟨uid, 2, 2⟩ =
        (((db.documents.filter fun d => d.user_id == uid).insertionSort
          newestFirst).drop 2).take 2 := rfl
    have happ : getDocuments db ⟨uid, 2, 0⟩ ++ getDocuments db ⟨uid, 2, 2⟩ =
        ((db.documents.filter fun d => d.user_id == uid).insertionSort newestFirst).take 4 := by
      rw [h0, h2]
      exact (List.take_add _ 2 2).symm
    have hnd4 : ((getDocuments db ⟨uid, 2, 0⟩ ++ getDocuments db ⟨uid, 2, 2⟩).map
        Document.id).Nodup := by
      rw [happ, List.map_take]
      exact hSnd.sublist (List.take_sublist _ _)
    refine ⟨?_, ?_, ?_, ?_⟩
    · rw [h0]
      exact List.length_take_of_le (by omega)
    · rw [h2]
      refine List.length_take_of_le ?_
      rw [List.length_drop]
      omega
    · intro x hx y hy hxy
      rw [List.map_append, List.nodup_append] at hnd4
      exact hnd4.2.2 (List.mem_map_of_mem Document.id hx)
        (hxy ▸ List.mem_map_of_mem Document.id hy)
    · intro x hx
      rw [happ] at hx
      have hxS : x ∈ (db.documents.filter fun d => d.user_id == uid).insertionSort
          newestFirst := (List.take_sublist _ _).subset hx
      have hxF : x ∈ db.documents.filter fun d => d.user_id == uid :=
        hperm.mem_iff.mp hxS
      obtain ⟨hxm, hxu⟩ := List.mem_filter.mp hxF
      exact ⟨hxm, beq_iff_eq.mp hxu⟩
  · intro uid
    rfl
  · intro raw parsed h
    simp only [parseGetDocumentsInput] at h
    split at h
    next hc =>
      cases h
      refine ⟨?_, ?_⟩
      · show 1 ≤ (Option.getD raw.limit 20).toNat
        omega
      · show (Option.getD raw.limit 20).toNat ≤ 100
        omega
    next => cases h

/-- C8 witness: a user with five documents gets two disjoint 2-item
pages at offsets 0 and 2, and omitted `limit`/`offset` parse to the
defaults 20/0. -/
theorem getDocuments_pagination_spec_witness :
    (getDocuments pageDB ⟨7, 2, 0⟩).length = 2
    ∧ (getDocuments pageDB ⟨7, 2, 2⟩).length = 2
    ∧ (∀ x ∈ getDocuments pageDB ⟨7, 2, 0⟩, ∀ y ∈ getDocuments pageDB ⟨7, 2, 2⟩,
        x.id ≠ y.id)
    ∧ parseGetDocumentsInput ⟨7, none, none⟩ = Except.ok ⟨7, 20, 0⟩ := by
  have h := getDocuments_pagination_spec
  have h4 := h.2.2.2.1 pageDB 7 (by decide) (by decide)
  exact ⟨h4.1, h4.2.1, h4.2.2.1, h.2.2.2.2.1 7⟩

/-- C9: when the update RPC throws, the auto-save controller ends in
the same post-state shape as a successful save: the locally synthesized
document — submitted title (defaulted to `Untitled Document` when
blank) and content, fresh `updated_at` — becomes current,
`hasUnsavedChanges` is cleared and `lastSaved` is set; no error state
exists to surface. -/
theorem saveDocument_masks_save_errors (st : EditorState) (now : Nat)
    (h : st.hasUnsavedChanges = true) :
    saveDocument st SaveOutcome.err now =
      { st with
          document :=
            { st.document with
                title := jsOr (jsTrim st.title) "Untitled Document",
                content := st.content,
                updated_at := now },
          lastSaved := some now,
          hasUnsavedChanges := false,
          isSaving := false } := by
  simp [saveDocument, h]

/-- C9 witness: a concrete dirty editor state saved through a thrown
error ends with the synthesized document and cleared flags. -/
theorem saveDocument_masks_save_errors_witness :
    saveDocument
      { document := sampleDoc, title := "  My Title ", content := "body",
        isSaving := false, lastSaved := none, hasUnsavedChanges := true }
      SaveOutcome.err 9 =
      { document :=
          { id := 1, title := "My Title", content := "body", user_id := 1,
            created_at := 0, updated_at := 9 },
        title := "  My Title ", content := "body", isSaving := false,
        lastSaved := some 9, hasUnsavedChanges := false } :=
  (saveDocument_masks_save_errors
      { document := sampleDoc, title := "  My Title ", content := "body",
        isSaving := false, lastSaved := none, hasUnsavedChanges := true }
      9 rfl).trans (by decide)

def contentDoc1 : Document :=
  { id := 1, title := "Shared Title", content := "alpha beta",
    user_id := 1, created_at := 0, updated_at := 0 }

def contentDoc2 : Document :=
  { id := 1, title := "Shared Title", content := "<p>completely different content</p>",
    user_id := 3, created_at := 0, updated_at := 9 }

def contentDB1 : DB :=
  { users := [], documents := [contentDoc1], sources := [], ai_responses := [] }

def contentDB2 : DB :=
  { users := [], documents := [contentDoc2],
    sources := [{ id := 5, document_id := 1, title := "S", content := "source body",
                  source_type := SourceType.text, source_url := none, created_at := 0 }],
    ai_responses := [] }

def contentDB1row : AiResponse :=
  { id := 10, document_id := 1, request_prompt := "please summarize",
    response_content := "Summary of \"Shared Title\":\n\nThis document covers the main topics of... The key insights include...",
    assistance_type := AssistanceType.summarize, created_at := 7 }

def contentDB2row : AiResponse :=
  { id := 11, document_id := 1, request_prompt := "please summarize",
    response_content := "Summary of \"Shared Title\":\n\nThis document covers the main topics of... The key insights include...",
    assistance_type := AssistanceType.summarize, created_at := 8 }

/-- C10: the generated `response_content` depends only on the
assistance type, the prompt and the target document's title — two
requests agreeing on those three produce identical content regardless
of document content, attached sources, or the caller-supplied context
(the assembled context blob is computed but never consumed). -/
theorem aiResponse_ignores_content_sources_context
    (db1 db2 : DB) (i1 i2 : AiAssistanceRequest) (now1 now2 id1 id2 : Nat)
    (d1 d2 : Document) (r1 r2 : AiResponse)
    (h1 : (db1.documents.filter fun x => x.id == i1.document_id).head? = some d1)
    (h2 : (db2.documents.filter fun x => x.id == i2.document_id).head? = some d2)
    (ht : d1.title = d2.title)
    (hp : i1.prompt = i2.prompt)
    (ha : i1.assistance_type = i2.assistance_type)
    (hr1 : (requestAiAssistance db1 i1 now1 id1).1 = Except.ok r1)
    (hr2 : (requestAiAssistance db2 i2 now2 id2).1 = Except.ok r2) :
    r1.response_content = r2.response_content := by
  cases hf1 : db1.documents.filter (fun x => x.id == i1.document_id) with
  | nil => rw [hf1] at h1; cases h1
  | cons a1 rest1 =>
    cases hf2 : db2.documents.filter (fun x => x.id == i2.document_id) with
    | nil => rw [hf2] at h2; cases h2
    | cons a2 rest2 =>
      rw [hf1] at h1
      rw [hf2] at h2
      simp only [List.head?_cons, Option.some.injEq] at h1 h2
      subst h1
      subst h2
      unfold requestAiAssistance at hr1 hr2
      rw [hf1] at hr1
      rw [hf2] at hr2
      simp only at hr1 hr2
      cases hr1
      cases hr2
      show (match i1.assistance_type with
        | AssistanceType.write => "Based on your prompt \"" ++ i1.prompt ++
            "\" and the document context, here's some content to help with your writing..."
        | AssistanceType.edit =>
            "Here are some editing suggestions for your text: \"" ++ i1.prompt ++ "\"..."
        | AssistanceType.study_guide => "Study Guide based on \"" ++ a1.title ++
            "\":\n\nKey Points:\n- Important concept 1\n- Important concept 2\n\n" ++
            "Questions for Review:\n1. What is...?\n2. How does...?"
        | AssistanceType.summarize => "Summary of \"" ++ a1.title ++
            "\":\n\nThis document covers the main topics of... The key insights include...")
        = (match i2.assistance_type with
        | AssistanceType.write => "Based on your prompt \"" ++ i2.prompt ++
            "\" and the document context, here's some content to help with your writing..."
        | AssistanceType.edit =>
            "Here are some editing suggestions for your text: \"" ++ i2.prompt ++ "\"..."
        | AssistanceType.study_guide => "Study Guide based on \"" ++ a2.title ++
            "\":\n\nKey Points:\n- Important concept 1\n- Important concept 2\n\n" ++
            "Questions for Review:\n1. What is...?\n2. How does...?"
        | AssistanceType.summarize => "Summary of \"" ++ a2.title ++
            "\":\n\nThis document covers the main topics of... The key insights include...")
      rw [← ht, ← hp, ← ha]

/-- C10 witness: against two stores whose document 1 shares the title
but differs in content and sources, the same summarize request (with
different caller context) produces identical response content. -/
theorem aiResponse_ignores_content_sources_context_witness :
    contentDB1row.response_content = contentDB2row.response_content :=
  aiResponse_ignores_content_sources_context contentDB1 contentDB2
    ⟨1, "please summarize", none, AssistanceType.summarize⟩
    ⟨1, "please summarize", some "selected text", AssistanceType.summarize⟩
    7 8 10 11 contentDoc1 contentDoc2 contentDB1row contentDB2row
    rfl rfl rfl rfl rfl rfl rfl

def summInput : AiAssistanceRequest :=
  { document_id := 1, prompt := "please summarize", context := none,
    assistance_type := AssistanceType.summarize }

def summRow : AiResponse :=
  { id := 10, document_id := 1, request_prompt := "please summarize",
    response_content := "Summary of \"Test Document\":\n\nThis document covers the main topics of... The key insights include...",
    assistance_type := AssistanceType.summarize, created_at := 7 }

/-- C3 counterexample: for document 1 of the sample store (title `Test
Document`, content `one two three`, word count 3), the successful
summarize response contains `Summary` and the title but does NOT
contain the word count `3` — the server template interpolates no word
count. -/
theorem ai_summarize_no_word_count_counterexample :
    jsWordCount sampleDoc.content = 3
    ∧ ((requestAiAssistance sampleDB summInput 7 10).1.toOption.map
        (fun row => strContains row.response_content "Summary")) = some true
    ∧ ((requestAiAssistance sampleDB summInput 7 10).1.toOption.map
        (fun row => strContains row.response_content "Test Document")) = some true
    ∧ ((requestAiAssistance sampleDB summInput 7 10).1.toOption.map
        (fun row => strContains row.response_content
          (Nat.repr (jsWordCount sampleDoc.content)))) = some false := by
  refine ⟨by decide, by decide, by decide, by decide⟩

/-- C3 as amended: a successful summarize response interpolates the
document's title — it contains the literal substring `Summary` and the
title — but no word count (the word-count template exists only in the
client-side demo fallback, not in this handler). -/
theorem ai_summarize_interpolates_title (db : DB) (input : AiAssistanceRequest)
    (now newId : Nat) (row : AiResponse) (d : Document)
    (hfind : (db.documents.filter fun x => x.id == input.document_id).head? = some d)
    (htype : input.assistance_type = AssistanceType.summarize)
    (hok : (requestAiAssistance db input now newId).1 = Except.ok row) :
    ("Summary".data <:+: row.response_content.data)
    ∧ (d.title.data <:+: row.response_content.data) := by
  cases hfil : db.documents.filter (fun x => x.id == input.document_id) with
  | nil =>
    rw [hfil] at hfind
    cases hfind
  | cons a rest =>
    rw [hfil] at hfind
    simp only [List.head?_cons, Option.some.injEq] at hfind
    subst hfind
    unfold requestAiAssistance at hok
    rw [hfil, htype] at hok
    simp only at hok
    cases hok
    constructor
    · refine ⟨[], (" of \"".data ++ a.title.data ++
        ("\":\n\nThis document covers the main topics of... The key insights include...").data), ?_⟩
      have hA : ("Summary of \"" : String).data = "Summary".data ++ " of \"".data := by decide
      simp [String.data_append, hA, List.append_assoc]
    · refine ⟨"Summary of \"".data,
        ("\":\n\nThis document covers the main topics of... The key insights include...").data, ?_⟩
      simp [String.data_append]

/-- C3 amended-claim witness: the concrete summarize response for the
sample document contains `Summary` and the document title. -/
theorem ai_summarize_interpolates_title_witness :
    ("Summary".data <:+: summRow.response_content.data)
    ∧ (sampleDoc.title.data <:+: summRow.response_content.data) :=
  ai_summarize_interpolates_title sampleDB summInput 7 10 summRow sampleDoc
    rfl rfl rfl

end DocuMind
